import Mathlib

/-!
Shallow embedding of the Chopin Competition analysis agent
(`agent.py`, `config.py`, `models.py`).

Python floats are modelled as exact rationals (`ℚ`); dictionaries whose
keys may be absent are modelled with `Option`; exceptions are modelled
with `Except String`; external effects (HTTP collectors, LLM calls) are
modelled as oracle parameters supplying the value the call would return,
or the exception it would raise.
-/

namespace Chopin

/-- models.py `PerformanceLevel`. -/
inductive PerformanceLevel where
  | ELIMINATED
  | AVERAGE
  | GOOD
  | EXCELLENT
  | OUTSTANDING
deriving DecidableEq, Repr

/-- models.py `CompetitionStage`. -/
inductive CompetitionStage where
  | PRELIMINARY
  | STAGE_1
  | STAGE_2
  | STAGE_3
  | FINAL
deriving DecidableEq, Repr

/-- models.py `SourceType`. -/
inductive SourceType where
  | YOUTUBE
  | NEWS
  | SOCIAL_MEDIA
  | EXPERT_REVIEW
  | COMPETITION_WEBSITE
deriving DecidableEq, Repr

/-- models.py `PerformanceData` (datetimes modelled as integer timestamps). -/
structure PerformanceData where
  id : String
  pianist_name : String
  nationality : String
  age : Option Nat
  stage : CompetitionStage
  performance_date : Int
  pieces_performed : List String
  video_url : Option String
  source : String
  source_type : SourceType
  timestamp : Int
deriving DecidableEq, Repr

/-- A review record as used by the agent (a dict with `title` and `content`).
Only its presence matters to the pipeline claims (counts). -/
structure Review where
  title : String
  content : String
deriving DecidableEq, Repr

/-- The JSON object `_analyze_single_performance` expects the LLM to return.
Each scored dimension may be absent (`none`), matching
`a.get(key, \x7b\x7d).get(score, 7)` falling back to the default. -/
structure ParsedAnalysis where
  technical_skill : Option ℚ
  musicality : Option ℚ
  interpretation : Option ℚ
  stage_presence : Option ℚ
  repertoire : Option ℚ
  strengths : List String
  weaknesses : List String
  overall_assessment : Option String
deriving DecidableEq, Repr

/-- The dict appended to `video_analyses`: the parsed LLM analysis enriched
with `pianist_name` and `performance_id`, or the degenerate error stub
produced on JSON-parse failure. -/
structure Analysis where
  pianist_name : String
  performance_id : String
  technical_skill : Option ℚ
  musicality : Option ℚ
  interpretation : Option ℚ
  stage_presence : Option ℚ
  repertoire : Option ℚ
  strengths : List String
  weaknesses : List String
  overall_assessment : Option String
  error : Option String
deriving DecidableEq, Repr

/-- config.py `Settings.CRITERIA_WEIGHTS` (a dict looked up by key). -/
def CRITERIA_WEIGHTS : String → ℚ
  | "technical_skill" => 0.25
  | "musicality" => 0.30
  | "interpretation" => 0.20
  | "stage_presence" => 0.10
  | "repertoire_difficulty" => 0.15
  | _ => 0

/-- config.py `Settings.LOW_SCORE_THRESHOLD`. -/
def LOW_SCORE_THRESHOLD : ℚ := 6.0

/-- config.py `Settings.MEDIUM_SCORE_THRESHOLD`. -/
def MEDIUM_SCORE_THRESHOLD : ℚ := 7.5

/-- config.py `Settings.HIGH_SCORE_THRESHOLD`. -/
def HIGH_SCORE_THRESHOLD : ℚ := 8.5

/-- config.py `Settings.EXCELLENT_SCORE_THRESHOLD`. -/
def EXCELLENT_SCORE_THRESHOLD : ℚ := 9.0

/-- agent.py `_analyze_single_performance`, lines 179-189: the tail of the
method, after the LLM call returned.  `parsed = some a` models
`json.loads(response.content)` succeeding with object `a`; `parsed = none`
models the `except` branch (response content was not valid JSON). -/
def analyzeSingle (performance : PerformanceData) (parsed : Option ParsedAnalysis) : Analysis :=
  match parsed with
  | some a =>
      { pianist_name := performance.pianist_name
        performance_id := performance.id
        technical_skill := a.technical_skill
        musicality := a.musicality
        interpretation := a.interpretation
        stage_presence := a.stage_presence
        repertoire := a.repertoire
        strengths := a.strengths
        weaknesses := a.weaknesses
        overall_assessment := a.overall_assessment
        error := none }
  | none =>
      { pianist_name := performance.pianist_name
        performance_id := performance.id
        technical_skill := none
        musicality := none
        interpretation := none
        stage_presence := none
        repertoire := none
        strengths := []
        weaknesses := []
        overall_assessment := none
        error := some "Failed to parse analysis" }

/-- Oracle outcome for one `_analyze_single_performance` call:
`Except.error e` models the awaited LLM call raising (caught by the per-item
`try` in `_analyze_performances`, item skipped); `Except.ok parsed` models
the call returning, with `parsed` the JSON-parse outcome. -/
abbrev AnalysisOracle := Nat → Except String (Option ParsedAnalysis)

/-- agent.py `_analyze_performances`, lines 105-121: analyze at most the
first 20 collected performances; a per-item exception drops that item only. -/
def analyzePerformances (oracle : AnalysisOracle) (performances : List PerformanceData) :
    List Analysis :=
  (performances.take 20).enum.filterMap fun ip =>
    match oracle ip.1 with
    | Except.error _ => none
    | Except.ok parsed => some (analyzeSingle ip.2 parsed)

/-- agent.py `_create_pianist_evaluation`, lines 231-235: average one scored
dimension over a group of analyses, substituting the default 7 when the
dimension is missing from an individual analysis. -/
def avgScore (f : Analysis → Option ℚ) (analyses : List Analysis) : ℚ :=
  (analyses.map fun a => (f a).getD 7).sum / analyses.length

/-- agent.py `_create_pianist_evaluation`, lines 238-244: the criteria-weighted
score. -/
def weightedScoreOf (t m i s r : ℚ) : ℚ :=
  t * CRITERIA_WEIGHTS "technical_skill" +
  m * CRITERIA_WEIGHTS "musicality" +
  i * CRITERIA_WEIGHTS "interpretation" +
  s * CRITERIA_WEIGHTS "stage_presence" +
  r * CRITERIA_WEIGHTS "repertoire_difficulty"

/-- The (level, win probability, finalist probability) triple chosen by the
threshold chain. -/
structure Bucket where
  level : PerformanceLevel
  win_prob : ℚ
  finalist_prob : ℚ
deriving DecidableEq, Repr

/-- agent.py `_create_pianist_evaluation`, lines 247-266: map the weighted
score to a performance level and probability constants. -/
def performanceBucket (weighted_score : ℚ) : Bucket :=
  if EXCELLENT_SCORE_THRESHOLD ≤ weighted_score then
    ⟨PerformanceLevel.OUTSTANDING, 0.8, 0.95⟩
  else if HIGH_SCORE_THRESHOLD ≤ weighted_score then
    ⟨PerformanceLevel.EXCELLENT, 0.5, 0.85⟩
  else if MEDIUM_SCORE_THRESHOLD ≤ weighted_score then
    ⟨PerformanceLevel.GOOD, 0.2, 0.6⟩
  else if LOW_SCORE_THRESHOLD ≤ weighted_score then
    ⟨PerformanceLevel.AVERAGE, 0.05, 0.3⟩
  else
    ⟨PerformanceLevel.ELIMINATED, 0.01, 0.1⟩

/-- models.py `TechnicalAnalysis`. -/
structure TechnicalAnalysis where
  finger_technique : ℚ
  pedaling : ℚ
  tempo_control : ℚ
  dynamic_range : ℚ
  articulation : ℚ
  overall_technical_score : ℚ
  comments : String
deriving DecidableEq, Repr

/-- models.py `MusicalAnalysis`. -/
structure MusicalAnalysis where
  phrasing : ℚ
  expression : ℚ
  tone_quality : ℚ
  rubato_usage : ℚ
  emotional_depth : ℚ
  overall_musicality_score : ℚ
  comments : String
deriving DecidableEq, Repr

/-- models.py `InterpretationAnalysis`. -/
structure InterpretationAnalysis where
  originality : ℚ
  stylistic_authenticity : ℚ
  cohesion : ℚ
  understanding_of_composer : ℚ
  overall_interpretation_score : ℚ
  comments : String
deriving DecidableEq, Repr

/-- models.py `StagePresenceAnalysis`. -/
structure StagePresenceAnalysis where
  confidence : ℚ
  connection_with_audience : ℚ
  physical_presentation : ℚ
  recovery_from_mistakes : ℚ
  overall_stage_presence_score : ℚ
  comments : String
deriving DecidableEq, Repr

/-- models.py `RepertoireAnalysis`. -/
structure RepertoireAnalysis where
  difficulty_level : ℚ
  variety : ℚ
  suitability_to_pianist : ℚ
  strategic_choices : ℚ
  overall_repertoire_score : ℚ
  comments : String
deriving DecidableEq, Repr

/-- models.py `PianistEvaluation`. -/
structure PianistEvaluation where
  pianist_name : String
  nationality : String
  stage : CompetitionStage
  technical_analysis : TechnicalAnalysis
  musical_analysis : MusicalAnalysis
  interpretation_analysis : InterpretationAnalysis
  stage_presence_analysis : StagePresenceAnalysis
  repertoire_analysis : RepertoireAnalysis
  overall_score : ℚ
  weighted_score : ℚ
  performance_level : PerformanceLevel
  strengths : List String
  weaknesses : List String
  win_probability : ℚ
  finalist_probability : ℚ
  expert_opinions_count : Nat
  audience_sentiment : ℚ
  comparison_to_previous_winners : String
  detailed_analysis : String
deriving DecidableEq, Repr

/-- `x` lies in the closed interval `[lo, hi]`, as a Boolean (one pydantic
`Field(ge=lo, le=hi)` constraint). -/
def inRange (lo hi x : ℚ) : Bool :=
  decide (lo ≤ x ∧ x ≤ hi)

/-- pydantic validation of `TechnicalAnalysis` (every score field in [0,10]). -/
def TechnicalAnalysis.valid (t : TechnicalAnalysis) : Bool :=
  inRange 0 10 t.finger_technique && inRange 0 10 t.pedaling &&
  inRange 0 10 t.tempo_control && inRange 0 10 t.dynamic_range &&
  inRange 0 10 t.articulation && inRange 0 10 t.overall_technical_score

/-- pydantic validation of `MusicalAnalysis`. -/
def MusicalAnalysis.valid (m : MusicalAnalysis) : Bool :=
  inRange 0 10 m.phrasing && inRange 0 10 m.expression &&
  inRange 0 10 m.tone_quality && inRange 0 10 m.rubato_usage &&
  inRange 0 10 m.emotional_depth && inRange 0 10 m.overall_musicality_score

/-- pydantic validation of `InterpretationAnalysis`. -/
def InterpretationAnalysis.valid (i : InterpretationAnalysis) : Bool :=
  inRange 0 10 i.originality && inRange 0 10 i.stylistic_authenticity &&
  inRange 0 10 i.cohesion && inRange 0 10 i.understanding_of_composer &&
  inRange 0 10 i.overall_interpretation_score

/-- pydantic validation of `StagePresenceAnalysis`. -/
def StagePresenceAnalysis.valid (s : StagePresenceAnalysis) : Bool :=
  inRange 0 10 s.confidence && inRange 0 10 s.connection_with_audience &&
  inRange 0 10 s.physical_presentation && inRange 0 10 s.recovery_from_mistakes &&
  inRange 0 10 s.overall_stage_presence_score

/-- pydantic validation of `RepertoireAnalysis`. -/
def RepertoireAnalysis.valid (r : RepertoireAnalysis) : Bool :=
  inRange 0 10 r.difficulty_level && inRange 0 10 r.variety &&
  inRange 0 10 r.suitability_to_pianist && inRange 0 10 r.strategic_choices &&
  inRange 0 10 r.overall_repertoire_score

/-- pydantic validation of `PianistEvaluation` (models.py lines 82-107): all
score fields in [0,10], probabilities in [0,1], audience sentiment in [-1,1]. -/
def PianistEvaluation.valid (e : PianistEvaluation) : Bool :=
  e.technical_analysis.valid && e.musical_analysis.valid &&
  e.interpretation_analysis.valid && e.stage_presence_analysis.valid &&
  e.repertoire_analysis.valid &&
  inRange 0 10 e.overall_score && inRange 0 10 e.weighted_score &&
  inRange 0 1 e.win_probability && inRange 0 1 e.finalist_probability &&
  inRange (-1) 1 e.audience_sentiment

/-- agent.py `_create_pianist_evaluation`, lines 218-355.  The
`detailedOracle` argument models the `_generate_detailed_analysis` LLM call
(`Except.error` = the awaited call raised).  `Except.error` results model the
exceptions the Python method can raise: the explicit `ValueError` when the
pianist has no collected performances, a raise from the LLM call, and a
pydantic `ValidationError` when a constructed model violates its field
bounds, as well as the `ZeroDivisionError` raised when averaging over an
empty analysis group.  All of these are caught by the per-pianist `try` in
`_evaluate_pianists`. -/
def createPianistEvaluation (pianist_name : String) (analyses : List Analysis)
    (performances_collected : List PerformanceData)
    (detailedOracle : Except String String) : Except String PianistEvaluation :=
  let performances := performances_collected.filter
    fun p => p.pianist_name = pianist_name
  match performances with
  | [] => Except.error ("No performances found for " ++ pianist_name)
  | performance :: _ =>
    if analyses.isEmpty then
      Except.error "division by zero"
    else
    let avg_technical := avgScore (fun a => a.technical_skill) analyses
    let avg_musicality := avgScore (fun a => a.musicality) analyses
    let avg_interpretation := avgScore (fun a => a.interpretation) analyses
    let avg_stage := avgScore (fun a => a.stage_presence) analyses
    let avg_repertoire := avgScore (fun a => a.repertoire) analyses
    let weighted_score :=
      weightedScoreOf avg_technical avg_musicality avg_interpretation avg_stage avg_repertoire
    let bucket := performanceBucket weighted_score
    let strengths := ((analyses.map fun a => a.strengths).flatten).dedup.take 5
    let weaknesses := ((analyses.map fun a => a.weaknesses).flatten).dedup.take 5
    match detailedOracle with
    | Except.error e => Except.error e
    | Except.ok detailed_analysis =>
      let e : PianistEvaluation :=
        { pianist_name := pianist_name
          nationality := performance.nationality
          stage := performance.stage
          technical_analysis :=
            { finger_technique := avg_technical
              pedaling := avg_technical
              tempo_control := avg_technical
              dynamic_range := avg_technical
              articulation := avg_technical
              overall_technical_score := avg_technical
              comments := "Averaged from multiple performances" }
          musical_analysis :=
            { phrasing := avg_musicality
              expression := avg_musicality
              tone_quality := avg_musicality
              rubato_usage := avg_musicality
              emotional_depth := avg_musicality
              overall_musicality_score := avg_musicality
              comments := "Averaged from multiple performances" }
          interpretation_analysis :=
            { originality := avg_interpretation
              stylistic_authenticity := avg_interpretation
              cohesion := avg_interpretation
              understanding_of_composer := avg_interpretation
              overall_interpretation_score := avg_interpretation
              comments := "Averaged from multiple performances" }
          stage_presence_analysis :=
            { confidence := avg_stage
              connection_with_audience := avg_stage
              physical_presentation := avg_stage
              recovery_from_mistakes := avg_stage
              overall_stage_presence_score := avg_stage
              comments := "Averaged from multiple performances" }
          repertoire_analysis :=
            { difficulty_level := avg_repertoire
              variety := avg_repertoire
              suitability_to_pianist := avg_repertoire
              strategic_choices := avg_repertoire
              overall_repertoire_score := avg_repertoire
              comments := "Performed: " ++
                String.intercalate ", " (performance.pieces_performed.take 3) }
          overall_score :=
            (avg_technical + avg_musicality + avg_interpretation + avg_stage + avg_repertoire) / 5
          weighted_score := weighted_score
          performance_level := bucket.level
          strengths := strengths
          weaknesses := weaknesses
          win_probability := bucket.win_prob
          finalist_probability := bucket.finalist_prob
          expert_opinions_count := analyses.length
          audience_sentiment := 0.5
          comparison_to_previous_winners := "Based on technical and musical criteria"
          detailed_analysis := detailed_analysis }
      if e.valid then Except.ok e else Except.error "validation error"

/-- Helper for agent.py `_evaluate_pianists`, lines 198-204: append analysis
`a` to the group keyed `name`, creating the group at the end if absent
(Python dict insertion order). -/
def addToGroups (groups : List (String × List Analysis)) (name : String) (a : Analysis) :
    List (String × List Analysis) :=
  match groups with
  | [] => [(name, [a])]
  | (n, l) :: rest =>
      if n = name then (n, l ++ [a]) :: rest
      else (n, l) :: addToGroups rest name a

/-- agent.py `_evaluate_pianists`, lines 198-204: group the video analyses by
pianist name, skipping analyses with a falsy (empty) name. -/
def groupByName (analyses : List Analysis) : List (String × List Analysis) :=
  analyses.foldl
    (fun groups a => if a.pianist_name ≠ "" then addToGroups groups a.pianist_name a else groups)
    []

/-- agent.py `_evaluate_pianists`, lines 191-216: evaluate each grouped
pianist; a pianist whose evaluation raises is printed and dropped. -/
def evaluatePianists (performances_collected : List PerformanceData)
    (video_analyses : List Analysis) (detailedOracle : String → Except String String) :
    List (String × PianistEvaluation) :=
  (groupByName video_analyses).filterMap fun ng =>
    match createPianistEvaluation ng.1 ng.2 performances_collected (detailedOracle ng.1) with
    | Except.ok e => some (ng.1, e)
    | Except.error _ => none

/-- The comparator of the ranking sort: `x` precedes `y` when the weighted
score of `x` is at least that of `y`. -/
def scoreGE (x y : String × PianistEvaluation) : Bool :=
  decide (y.2.weighted_score ≤ x.2.weighted_score)

/-- agent.py `_predict_winners`, lines 416-420: the evaluations dict items
sorted by weighted score, descending (Python `sorted` is a stable sort;
`reverse=True` with this key is the stable descending order). -/
def rankedPianists (evals : List (String × PianistEvaluation)) :
    List (String × PianistEvaluation) :=
  evals.mergeSort scoreGE

/-- agent.py `_predict_winners`, line 422: names of the first ten ranked
pianists. -/
def top10Of (evals : List (String × PianistEvaluation)) : List String :=
  ((rankedPianists evals).take 10).map Prod.fst

/-- agent.py `_predict_winners`, line 423. -/
def predictedWinnerOf (evals : List (String × PianistEvaluation)) : String :=
  (top10Of evals).headD "Unable to determine"

/-- agent.py `_predict_winners`, line 424. -/
def predictedFinalistsOf (evals : List (String × PianistEvaluation)) : List String :=
  if 6 ≤ (top10Of evals).length then (top10Of evals).take 6 else top10Of evals

/-- agent.py `_predict_winners`, lines 427-430: names ranked 11th-20th whose
weighted score clears the high threshold, capped at 3. -/
def darkHorsesOf (evals : List (String × PianistEvaluation)) : List String :=
  (((((rankedPianists evals).drop 10).take 10).filter
      fun ne => decide (HIGH_SCORE_THRESHOLD ≤ ne.2.weighted_score)).map Prod.fst).take 3

/-- models.py `CompetitionAnalysisResponse` (the wall-clock `timestamp` field
is omitted from the embedding). -/
structure CompetitionAnalysisResponse where
  stage : CompetitionStage
  evaluated_pianists : List PianistEvaluation
  top_10_predictions : List String
  predicted_winner : String
  predicted_finalists : List String
  dark_horses : List String
  overall_competition_analysis : String
  trends_and_observations : String
  data_sources_analyzed : Nat
  confidence : ℚ
  historical_comparison : String
deriving DecidableEq, Repr

/-- Render a rational as text (stands in for Python float formatting; no
claim depends on the rendered digits). -/
def ratText (q : ℚ) : String :=
  toString q.num ++ "/" ++ toString q.den

/-- Helper for agent.py `_generate_trends_analysis`, lines 497-500: count
occurrences by nationality, preserving first-seen key order. -/
def bumpCount (acc : List (String × Nat)) (n : String) : List (String × Nat) :=
  match acc with
  | [] => [(n, 1)]
  | (k, c) :: rest =>
      if k = n then (k, c + 1) :: rest else (k, c) :: bumpCount rest n

/-- agent.py `_generate_trends_analysis`, lines 490-511 (no LLM call; a pure
computation over the evaluations). -/
def generateTrends (evals : List (String × PianistEvaluation)) : String :=
  let avg_technical :=
    (evals.map fun ne => ne.2.technical_analysis.overall_technical_score).sum / evals.length
  let avg_musicality :=
    (evals.map fun ne => ne.2.musical_analysis.overall_musicality_score).sum / evals.length
  let nationalities := (evals.map fun ne => ne.2.nationality).foldl bumpCount []
  let top_countries := (nationalities.mergeSort fun x y => decide (y.2 ≤ x.2)).take 3
  "Trends and Observations:\n\n- Average Technical Level: " ++ ratText avg_technical ++
  "/10\n- Average Musicality: " ++ ratText avg_musicality ++
  "/10\n- Top Participating Countries: " ++
  String.intercalate ", " (top_countries.map fun c => c.1 ++ " (" ++ toString c.2 ++ ")") ++
  "\n- Total Pianists Analyzed: " ++ toString evals.length ++
  "\n\nThe competition shows " ++ (if 8 < avg_technical then "high" else "moderate") ++
  " technical standards and " ++ (if 8.5 < avg_musicality then "exceptional" else "good") ++
  " musicality across participants."

/-- agent.py `_generate_historical_comparison`, lines 513-527: a hardcoded
string. -/
def historicalComparison : String :=
  "Historical Comparison:\n\nCompared to previous Chopin Competitions (2015, 2021), " ++
  "the current edition shows:\n- Technical standards remain consistently high\n" ++
  "- Greater diversity in interpretative approaches\n- Increased international " ++
  "participation\n- Evolution in stylistic preferences towards more romantic " ++
  "interpretations\n\nPrevious winners\x27 characteristics that match current top " ++
  "performers:\n- Exceptional technical control combined with deep musicality\n" ++
  "- Mature interpretation despite young age\n- Ability to handle the most " ++
  "challenging repertoire with apparent ease"

/-- agent.py `_predict_winners`, lines 399-412: the placeholder response
returned when no pianist evaluations are available. -/
def emptyAnalysisResponse : CompetitionAnalysisResponse :=
  { stage := CompetitionStage.FINAL
    evaluated_pianists := []
    top_10_predictions := []
    predicted_winner := "No data available"
    predicted_finalists := []
    dark_horses := []
    overall_competition_analysis := "No performance data was collected. Please ensure data sources are accessible and try again."
    trends_and_observations := "Insufficient data for trend analysis."
    data_sources_analyzed := 0
    confidence := 0.0
    historical_comparison := "Unable to perform historical comparison without data." }

/-- models.py `AgentState` (the unused jury fields are omitted). -/
structure AgentState where
  performances_collected : List PerformanceData := []
  reviews_collected : List Review := []
  video_analyses : List Analysis := []
  pianist_evaluations : List (String × PianistEvaluation) := []
  final_analysis : Option CompetitionAnalysisResponse := none
  iteration : Nat := 0
  errors : List String := []
deriving DecidableEq, Repr

/-- agent.py `_predict_winners`, lines 392-460.  `overallOracle` models the
`_generate_overall_analysis` LLM call, the only call in this method that can
raise; the method has no `try` around it, so `Except.error` propagates to
the pipeline. -/
def predictWinnersStage (overallOracle : Except String String) (s : AgentState) :
    Except String AgentState :=
  if s.pianist_evaluations = [] then
    Except.ok { s with final_analysis := some emptyAnalysisResponse }
  else
    let ranked := rankedPianists s.pianist_evaluations
    match overallOracle with
    | Except.error e => Except.error e
    | Except.ok overall_analysis =>
      let response : CompetitionAnalysisResponse :=
        { stage := CompetitionStage.FINAL
          evaluated_pianists := ranked.map Prod.snd
          top_10_predictions := top10Of s.pianist_evaluations
          predicted_winner := predictedWinnerOf s.pianist_evaluations
          predicted_finalists := predictedFinalistsOf s.pianist_evaluations
          dark_horses := darkHorsesOf s.pianist_evaluations
          overall_competition_analysis := overall_analysis
          trends_and_observations := generateTrends s.pianist_evaluations
          data_sources_analyzed := s.performances_collected.length + s.reviews_collected.length
          confidence := 0.75
          historical_comparison := historicalComparison }
      Except.ok { s with final_analysis := some response }

/-- agent.py `_collect_performances`, lines 63-86.  The oracle models the two
collector calls: `Except.ok ps` is the concatenated collection result,
`Except.error e` a raised exception (caught; an error string is appended and
no other field is touched). -/
def collectPerformancesStage (oracle : Except String (List PerformanceData))
    (s : AgentState) : AgentState :=
  match oracle with
  | Except.ok ps =>
      { s with performances_collected := ps, iteration := s.iteration + 1 }
  | Except.error e =>
      { s with errors := s.errors ++ ["Performance collection error: " ++ e] }

/-- agent.py `_collect_reviews`, lines 88-103. -/
def collectReviewsStage (oracle : Except String (List Review)) (s : AgentState) : AgentState :=
  match oracle with
  | Except.ok rs => { s with reviews_collected := rs }
  | Except.error e =>
      { s with errors := s.errors ++ ["Review collection error: " ++ e] }

/-- agent.py `_analyze_performances` as a pipeline stage (per-item failures
are swallowed inside `analyzePerformances`; the stage itself cannot raise). -/
def analyzePerformancesStage (oracle : AnalysisOracle) (s : AgentState) : AgentState :=
  { s with video_analyses := analyzePerformances oracle s.performances_collected }

/-- agent.py `_evaluate_pianists` as a pipeline stage (per-pianist failures
are swallowed inside `evaluatePianists`; the stage itself cannot raise). -/
def evaluatePianistsStage (detailedOracle : String → Except String String)
    (s : AgentState) : AgentState :=
  { s with pianist_evaluations :=
      evaluatePianists s.performances_collected s.video_analyses detailedOracle }

/-- agent.py `_build_graph` and `analyze`, lines 42-61 and 529-538: the five
stages in fixed order.  The result is the terminal state, or the exception
that `_predict_winners` let propagate. -/
def runPipeline (perfOracle : Except String (List PerformanceData))
    (reviewOracle : Except String (List Review))
    (analysisOracle : AnalysisOracle)
    (detailedOracle : String → Except String String)
    (overallOracle : Except String String) : Except String AgentState :=
  let s1 := collectPerformancesStage perfOracle {}
  let s2 := collectReviewsStage reviewOracle s1
  let s3 := analyzePerformancesStage analysisOracle s2
  let s4 := evaluatePianistsStage detailedOracle s3
  predictWinnersStage overallOracle s4

/-- Equality of `Except` values is decidable when it is on both sides. -/
def exceptDecEq {ε α : Type} [DecidableEq ε] [DecidableEq α] :
    (a b : Except ε α) → Decidable (a = b)
  | Except.error x, Except.error y =>
    if h : x = y then Decidable.isTrue (congrArg Except.error h)
    else Decidable.isFalse (fun c => h (Except.error.inj c))
  | Except.error _, Except.ok _ => Decidable.isFalse (fun c => Except.noConfusion c)
  | Except.ok _, Except.error _ => Decidable.isFalse (fun c => Except.noConfusion c)
  | Except.ok x, Except.ok y =>
    if h : x = y then Decidable.isTrue (congrArg Except.ok h)
    else Decidable.isFalse (fun c => h (Except.ok.inj c))

instance {ε α : Type} [DecidableEq ε] [DecidableEq α] : DecidableEq (Except ε α) :=
  exceptDecEq

/-! ## Sample data (used to instantiate theorems at concrete inputs) -/

/-- A sample collected performance. -/
def samplePerformance (name : String) : PerformanceData :=
  { id := "perf-" ++ name
    pianist_name := name
    nationality := "PL"
    age := some 24
    stage := CompetitionStage.FINAL
    performance_date := 0
    pieces_performed := ["Ballade No. 1"]
    video_url := none
    source := "youtube"
    source_type := SourceType.YOUTUBE
    timestamp := 0 }

/-- A sample parsed LLM analysis scoring every dimension `q`. -/
def sampleParsed (q : ℚ) : ParsedAnalysis :=
  { technical_skill := some q
    musicality := some q
    interpretation := some q
    stage_presence := some q
    repertoire := some q
    strengths := ["tone"]
    weaknesses := []
    overall_assessment := some "solid" }

/-- A sample pianist evaluation whose weighted score is `w`. -/
def sampleEvaluation (name : String) (w : ℚ) : PianistEvaluation :=
  { pianist_name := name
    nationality := "PL"
    stage := CompetitionStage.FINAL
    technical_analysis := ⟨w, w, w, w, w, w, "c"⟩
    musical_analysis := ⟨w, w, w, w, w, w, "c"⟩
    interpretation_analysis := ⟨w, w, w, w, w, "c"⟩
    stage_presence_analysis := ⟨w, w, w, w, w, "c"⟩
    repertoire_analysis := ⟨w, w, w, w, w, "c"⟩
    overall_score := w
    weighted_score := w
    performance_level := (performanceBucket w).level
    strengths := []
    weaknesses := []
    win_probability := (performanceBucket w).win_prob
    finalist_probability := (performanceBucket w).finalist_prob
    expert_opinions_count := 1
    audience_sentiment := 0.5
    comparison_to_previous_winners := "Based on technical and musical criteria"
    detailed_analysis := "d" }

/-- Two sample evaluations, already distinct in name and score. -/
def c2SampleEvals : List (String × PianistEvaluation) :=
  [("A", sampleEvaluation "A" 9), ("B", sampleEvaluation "B" 8)]

/-- A one-element analysis group for pianist `A`, scored 8 everywhere. -/
def c3Analyses : List Analysis :=
  [analyzeSingle (samplePerformance "A") (some (sampleParsed 8))]

/-- The evaluation the aggregator produces from `c3Analyses` (every averaged
dimension is 8, so the weighted score is 8 and the bucket is GOOD). -/
def c3Eval : PianistEvaluation :=
  { pianist_name := "A"
    nationality := "PL"
    stage := CompetitionStage.FINAL
    technical_analysis := ⟨8, 8, 8, 8, 8, 8, "Averaged from multiple performances"⟩
    musical_analysis := ⟨8, 8, 8, 8, 8, 8, "Averaged from multiple performances"⟩
    interpretation_analysis := ⟨8, 8, 8, 8, 8, "Averaged from multiple performances"⟩
    stage_presence_analysis := ⟨8, 8, 8, 8, 8, "Averaged from multiple performances"⟩
    repertoire_analysis := ⟨8, 8, 8, 8, 8, "Performed: " ++ String.intercalate ", " ["Ballade No. 1"]⟩
    overall_score := 8
    weighted_score := 8
    performance_level := PerformanceLevel.GOOD
    strengths := ["tone"]
    weaknesses := []
    win_probability := 0.2
    finalist_probability := 0.6
    expert_opinions_count := 1
    audience_sentiment := 0.5
    comparison_to_previous_winners := "Based on technical and musical criteria"
    detailed_analysis := "great" }

/-- Twelve sample evaluations with distinct names (so ranks 11-12 exist). -/
def c4SampleEvals : List (String × PianistEvaluation) :=
  [("P01", sampleEvaluation "P01" 9), ("P02", sampleEvaluation "P02" 9),
   ("P03", sampleEvaluation "P03" 9), ("P04", sampleEvaluation "P04" 9),
   ("P05", sampleEvaluation "P05" 9), ("P06", sampleEvaluation "P06" 9),
   ("P07", sampleEvaluation "P07" 9), ("P08", sampleEvaluation "P08" 9),
   ("P09", sampleEvaluation "P09" 9), ("P10", sampleEvaluation "P10" 9),
   ("P11", sampleEvaluation "P11" 9), ("P12", sampleEvaluation "P12" 9)]

/-! ## Helper lemmas -/

theorem rankedPianists_perm (evals : List (String × PianistEvaluation)) :
    (rankedPianists evals).Perm evals :=
  List.mergeSort_perm evals scoreGE

theorem rankedPianists_length (evals : List (String × PianistEvaluation)) :
    (rankedPianists evals).length = evals.length :=
  (rankedPianists_perm evals).length_eq

theorem scoreGE_trans (a b c : String × PianistEvaluation)
    (hab : scoreGE a b) (hbc : scoreGE b c) : scoreGE a c := by
  simp only [scoreGE, decide_eq_true_eq] at *
  exact le_trans hbc hab

theorem scoreGE_total (a b : String × PianistEvaluation) :
    scoreGE a b || scoreGE b a := by
  simp only [scoreGE, Bool.or_eq_true, decide_eq_true_eq]
  exact le_total b.2.weighted_score a.2.weighted_score

theorem rankedPianists_pairwise (evals : List (String × PianistEvaluation)) :
    (rankedPianists evals).Pairwise
      (fun x y => y.2.weighted_score ≤ x.2.weighted_score) := by
  have h := List.sorted_mergeSort scoreGE_trans scoreGE_total evals
  exact h.imp fun hxy => by
    simpa only [scoreGE, decide_eq_true_eq] using hxy

/-- The first element of the ranked list has maximal weighted score among the
input evaluations. -/
theorem rankedPianists_head_max (evals : List (String × PianistEvaluation))
    (e0 : String × PianistEvaluation) (rest : List (String × PianistEvaluation))
    (hcons : rankedPianists evals = e0 :: rest) :
    ∀ p ∈ evals, p.2.weighted_score ≤ e0.2.weighted_score := by
  intro p hp
  have hpr : p ∈ rankedPianists evals := ((rankedPianists_perm evals).mem_iff).2 hp
  rw [hcons] at hpr
  rcases List.mem_cons.1 hpr with h | h
  · rw [h]
  · have hpw := rankedPianists_pairwise evals
    rw [hcons] at hpw
    exact (List.pairwise_cons.1 hpw).1 p h


/-- Evaluating the aggregator on the concrete one-analysis group `c3Analyses`
produces exactly `c3Eval`. -/
theorem createEval_sample :
    createPianistEvaluation "A"
      [analyzeSingle (samplePerformance "A") (some (sampleParsed 8))]
      [samplePerformance "A"] (Except.ok "great") = Except.ok c3Eval := by
  norm_num [createPianistEvaluation, analyzeSingle, samplePerformance,
    sampleParsed, avgScore, weightedScoreOf, CRITERIA_WEIGHTS, performanceBucket,
    EXCELLENT_SCORE_THRESHOLD, HIGH_SCORE_THRESHOLD, MEDIUM_SCORE_THRESHOLD,
    LOW_SCORE_THRESHOLD, PianistEvaluation.valid, TechnicalAnalysis.valid,
    MusicalAnalysis.valid, InterpretationAnalysis.valid, StagePresenceAnalysis.valid,
    RepertoireAnalysis.valid, inRange, c3Eval, List.filter]


/-- Keys of `addToGroups`: unchanged when the name is already a key,
otherwise the name is appended. -/
theorem addToGroups_keys (gs : List (String × List Analysis)) (name : String) (a : Analysis) :
    (addToGroups gs name a).map Prod.fst
      = if name ∈ gs.map Prod.fst then gs.map Prod.fst
        else gs.map Prod.fst ++ [name] := by
  induction gs with
  | nil => simp [addToGroups]
  | cons hd tl ih =>
    rcases hd with ⟨n, l⟩
    by_cases h : n = name
    · simp [addToGroups, h]
    · simp only [addToGroups, if_neg h, List.map_cons, ih]
      by_cases hmem : name ∈ tl.map Prod.fst
      · simp [hmem, Ne.symm h]
      · simp [hmem, Ne.symm h]

/-- `addToGroups` preserves duplicate-freedom of the group keys. -/
theorem addToGroups_keys_nodup (gs : List (String × List Analysis)) (name : String)
    (a : Analysis) (h : (gs.map Prod.fst).Nodup) :
    ((addToGroups gs name a).map Prod.fst).Nodup := by
  rw [addToGroups_keys]
  split_ifs with hmem
  · exact h
  · simp [List.nodup_append, h, hmem]

/-- The groups built by `_evaluate_pianists` have duplicate-free keys (Python
dict keys are unique). -/
theorem groupByName_keys_nodup (analyses : List Analysis) :
    ((groupByName analyses).map Prod.fst).Nodup := by
  rw [groupByName]
  suffices h : ∀ (l : List Analysis) (gs : List (String × List Analysis)),
      (gs.map Prod.fst).Nodup →
      ((l.foldl (fun groups a =>
          if a.pianist_name ≠ "" then addToGroups groups a.pianist_name a else groups)
        gs).map Prod.fst).Nodup by
    exact h analyses [] (by simp)
  intro l
  induction l with
  | nil => intro gs h; simpa using h
  | cons a t ih =>
    intro gs h
    simp only [List.foldl_cons]
    by_cases ha : a.pianist_name ≠ ""
    · rw [if_pos ha]
      exact ih _ (addToGroups_keys_nodup _ _ _ h)
    · rw [if_neg ha]
      exact ih _ h

/-- In an association list with duplicate-free keys, a key determines its
value. -/
theorem keys_nodup_unique {α β : Type} (l : List (α × β))
    (hn : (l.map Prod.fst).Nodup) (a : α) (b c : β)
    (hb : (a, b) ∈ l) (hc : (a, c) ∈ l) : b = c := by
  induction l with
  | nil => simp at hb
  | cons hd tl ih =>
    simp only [List.map_cons, List.nodup_cons] at hn
    rcases List.mem_cons.1 hb with h1 | h1 <;> rcases List.mem_cons.1 hc with h2 | h2
    · rw [← h1] at h2
      exact (Prod.ext_iff.1 h2).2.symm
    · exfalso
      exact hn.1 (by rw [← h1]; exact List.mem_map.2 ⟨(a, c), h2, rfl⟩)
    · exfalso
      exact hn.1 (by rw [← h2]; exact List.mem_map.2 ⟨(a, b), h1, rfl⟩)
    · exact ih hn.2 h1 h2

/-- A successfully constructed evaluation passed the pydantic validation. -/
theorem createPianistEvaluation_valid (n : String) (g : List Analysis)
    (ps : List PerformanceData) (d : Except String String) (e : PianistEvaluation)
    (hok : createPianistEvaluation n g ps d = Except.ok e) : e.valid = true := by
  simp only [createPianistEvaluation] at hok
  split at hok
  · exact absurd hok (by simp)
  · split at hok
    · exact absurd hok (by simp)
    · split at hok
      · exact absurd hok (by simp)
      · split at hok
        case isFalse => exact absurd hok (by simp)
        rename_i hval
        rw [Except.ok.injEq] at hok
        rw [← hok]
        exact hval

/-! ## Theorems -/

/-- C1: for every weighted score `w`, the performance level and win
probability are determined by lower-bound-inclusive buckets: `w ≥ 9.0` gives
OUTSTANDING and win probability 0.8; `8.5 ≤ w < 9.0` gives EXCELLENT and 0.5;
`7.5 ≤ w < 8.5` gives GOOD and 0.2; `6.0 ≤ w < 7.5` gives AVERAGE and 0.05;
`w < 6.0` gives ELIMINATED and 0.01; in particular `w = 9.0` yields
OUTSTANDING and `w = 8.5` yields EXCELLENT. -/
theorem C1_score_buckets (w : ℚ) :
    ((performanceBucket w).level = PerformanceLevel.OUTSTANDING ↔ 9 ≤ w)
    ∧ ((performanceBucket w).level = PerformanceLevel.EXCELLENT ↔ 8.5 ≤ w ∧ w < 9)
    ∧ ((performanceBucket w).level = PerformanceLevel.GOOD ↔ 7.5 ≤ w ∧ w < 8.5)
    ∧ ((performanceBucket w).level = PerformanceLevel.AVERAGE ↔ 6 ≤ w ∧ w < 7.5)
    ∧ ((performanceBucket w).level = PerformanceLevel.ELIMINATED ↔ w < 6)
    ∧ ((performanceBucket w).win_prob =
        if 9 ≤ w then 0.8 else if 8.5 ≤ w then 0.5 else if 7.5 ≤ w then 0.2
        else if 6 ≤ w then 0.05 else 0.01)
    ∧ (performanceBucket 9).level = PerformanceLevel.OUTSTANDING
    ∧ (performanceBucket 9).win_prob = 0.8
    ∧ (performanceBucket 8.5).level = PerformanceLevel.EXCELLENT
    ∧ (performanceBucket 8.5).win_prob = 0.5 := by
  have eE : EXCELLENT_SCORE_THRESHOLD = 9 := by norm_num [EXCELLENT_SCORE_THRESHOLD]
  have eH : HIGH_SCORE_THRESHOLD = 8.5 := by norm_num [HIGH_SCORE_THRESHOLD]
  have eM : MEDIUM_SCORE_THRESHOLD = 7.5 := by norm_num [MEDIUM_SCORE_THRESHOLD]
  have eL : LOW_SCORE_THRESHOLD = 6 := by norm_num [LOW_SCORE_THRESHOLD]
  refine ⟨?_, ?_, ?_, ?_, ?_, ?_, ?_, ?_, ?_, ?_⟩ <;>
    simp only [performanceBucket, eE, eH, eM, eL] <;>
    split_ifs with h1 h2 h3 h4 <;>
    first
      | rfl
      | (exfalso; linarith)
      | (simp_all <;> first | linarith | (intro ha; linarith))

/-- C2: for every non-empty evaluation set, the predictions are the pure
post-processing of the weighted-score-descending order: `top_10_predictions`
is the list of the first `min 10 n` pianist names in that order,
`predicted_winner` is the first name (carrying a maximal weighted score), and
`predicted_finalists` is the prefix of the top-10 list of length
`min 6 (top_10.length)`. -/
theorem C2_predictions (evals : List (String × PianistEvaluation)) (h : evals ≠ []) :
    top10Of evals = ((rankedPianists evals).map Prod.fst).take 10
    ∧ (top10Of evals).length = min 10 evals.length
    ∧ (∃ ev, (predictedWinnerOf evals, ev) ∈ evals
        ∧ ∀ p ∈ evals, p.2.weighted_score ≤ ev.weighted_score)
    ∧ predictedWinnerOf evals = (top10Of evals).headD "Unable to determine"
    ∧ predictedFinalistsOf evals = (top10Of evals).take (min 6 (top10Of evals).length)
    ∧ (predictedFinalistsOf evals).length = min 6 (top10Of evals).length := by
  have hmap : top10Of evals = ((rankedPianists evals).map Prod.fst).take 10 := by
    simp [top10Of, List.map_take]
  have hlen : (top10Of evals).length = min 10 evals.length := by
    simp [top10Of, rankedPianists_length, Nat.min_comm]
  refine ⟨hmap, hlen, ?_, rfl, ?_, ?_⟩
  · have hne : rankedPianists evals ≠ [] := by
      intro hnil
      have := rankedPianists_length evals
      rw [hnil] at this
      exact h (List.length_eq_zero.1 this.symm)
    rcases hr : rankedPianists evals with _ | ⟨e0, rest⟩
    · exact absurd hr hne
    refine ⟨e0.2, ?_, rankedPianists_head_max evals e0 rest hr⟩
    have hwin : predictedWinnerOf evals = e0.1 := by
      simp [predictedWinnerOf, top10Of, hr]
    have he0 : e0 ∈ evals := by
      have : e0 ∈ rankedPianists evals := by rw [hr]; exact List.mem_cons_self e0 rest
      exact ((rankedPianists_perm evals).mem_iff).1 this
    rw [hwin]
    simpa using he0
  · by_cases h6 : 6 ≤ (top10Of evals).length
    · rw [predictedFinalistsOf, if_pos h6, Nat.min_eq_left h6]
    · rw [predictedFinalistsOf, if_neg h6]
      have hle : (top10Of evals).length ≤ 6 := le_of_not_le h6
      rw [Nat.min_eq_right hle, List.take_length]
  · by_cases h6 : 6 ≤ (top10Of evals).length
    · rw [predictedFinalistsOf, if_pos h6]
      simp [Nat.min_eq_left h6]
    · rw [predictedFinalistsOf, if_neg h6]
      have hle : (top10Of evals).length ≤ 6 := le_of_not_le h6
      rw [Nat.min_eq_right hle]

/-- Witness for C2 at a concrete two-evaluation input. -/
theorem C2_predictions_witness :
    c2SampleEvals ≠ []
    ∧ (top10Of c2SampleEvals = ((rankedPianists c2SampleEvals).map Prod.fst).take 10
       ∧ (top10Of c2SampleEvals).length = min 10 c2SampleEvals.length
       ∧ (∃ ev, (predictedWinnerOf c2SampleEvals, ev) ∈ c2SampleEvals
           ∧ ∀ p ∈ c2SampleEvals, p.2.weighted_score ≤ ev.weighted_score)
       ∧ predictedWinnerOf c2SampleEvals = (top10Of c2SampleEvals).headD "Unable to determine"
       ∧ predictedFinalistsOf c2SampleEvals
           = (top10Of c2SampleEvals).take (min 6 (top10Of c2SampleEvals).length)
       ∧ (predictedFinalistsOf c2SampleEvals).length
           = min 6 (top10Of c2SampleEvals).length) :=
  ⟨by decide, C2_predictions c2SampleEvals (by decide)⟩

/-- C3: every successfully created pianist evaluation has a weighted score
equal to the convex combination of the five averaged sub-scores with the
fixed weights 0.25 / 0.30 / 0.20 / 0.10 / 0.15 (which sum to 1), and the
weighted score lies in [0, 10]. -/
theorem C3_weighted_convex (name : String) (analyses : List Analysis)
    (ps : List PerformanceData) (d : Except String String) (e : PianistEvaluation)
    (hok : createPianistEvaluation name analyses ps d = Except.ok e) :
    CRITERIA_WEIGHTS "technical_skill" + CRITERIA_WEIGHTS "musicality"
      + CRITERIA_WEIGHTS "interpretation" + CRITERIA_WEIGHTS "stage_presence"
      + CRITERIA_WEIGHTS "repertoire_difficulty" = 1
    ∧ e.weighted_score =
        e.technical_analysis.overall_technical_score * CRITERIA_WEIGHTS "technical_skill"
      + e.musical_analysis.overall_musicality_score * CRITERIA_WEIGHTS "musicality"
      + e.interpretation_analysis.overall_interpretation_score * CRITERIA_WEIGHTS "interpretation"
      + e.stage_presence_analysis.overall_stage_presence_score * CRITERIA_WEIGHTS "stage_presence"
      + e.repertoire_analysis.overall_repertoire_score * CRITERIA_WEIGHTS "repertoire_difficulty"
    ∧ 0 ≤ e.weighted_score ∧ e.weighted_score ≤ 10 := by
  refine ⟨by norm_num [CRITERIA_WEIGHTS], ?_⟩
  simp only [createPianistEvaluation] at hok
  split at hok
  · exact absurd hok (by simp)
  · split at hok
    · exact absurd hok (by simp)
    · split at hok
      · exact absurd hok (by simp)
      · split at hok
        case isFalse => exact absurd hok (by simp)
        rename_i hval
        rw [Except.ok.injEq] at hok
        subst hok
        simp only [PianistEvaluation.valid, TechnicalAnalysis.valid,
          MusicalAnalysis.valid, InterpretationAnalysis.valid,
          StagePresenceAnalysis.valid, RepertoireAnalysis.valid, inRange,
          Bool.and_eq_true, decide_eq_true_eq] at hval
        have ht : 0 ≤ avgScore (fun a => a.technical_skill) analyses
            ∧ avgScore (fun a => a.technical_skill) analyses ≤ 10 := by tauto
        have hm : 0 ≤ avgScore (fun a => a.musicality) analyses
            ∧ avgScore (fun a => a.musicality) analyses ≤ 10 := by tauto
        have hi : 0 ≤ avgScore (fun a => a.interpretation) analyses
            ∧ avgScore (fun a => a.interpretation) analyses ≤ 10 := by tauto
        have hs : 0 ≤ avgScore (fun a => a.stage_presence) analyses
            ∧ avgScore (fun a => a.stage_presence) analyses ≤ 10 := by tauto
        have hr : 0 ≤ avgScore (fun a => a.repertoire) analyses
            ∧ avgScore (fun a => a.repertoire) analyses ≤ 10 := by tauto
        refine ⟨rfl, ?_, ?_⟩ <;>
          · show _ ≤ _
            simp only [weightedScoreOf]
            norm_num [CRITERIA_WEIGHTS]
            linarith [ht.1, ht.2, hm.1, hm.2, hi.1, hi.2, hs.1, hs.2, hr.1, hr.2]

/-- Witness for C3 at a concrete successfully created evaluation. -/
theorem C3_weighted_convex_witness :
    createPianistEvaluation "A" c3Analyses [samplePerformance "A"] (Except.ok "great")
      = Except.ok c3Eval
    ∧ (CRITERIA_WEIGHTS "technical_skill" + CRITERIA_WEIGHTS "musicality"
        + CRITERIA_WEIGHTS "interpretation" + CRITERIA_WEIGHTS "stage_presence"
        + CRITERIA_WEIGHTS "repertoire_difficulty" = 1
      ∧ c3Eval.weighted_score =
          c3Eval.technical_analysis.overall_technical_score * CRITERIA_WEIGHTS "technical_skill"
        + c3Eval.musical_analysis.overall_musicality_score * CRITERIA_WEIGHTS "musicality"
        + c3Eval.interpretation_analysis.overall_interpretation_score
            * CRITERIA_WEIGHTS "interpretation"
        + c3Eval.stage_presence_analysis.overall_stage_presence_score
            * CRITERIA_WEIGHTS "stage_presence"
        + c3Eval.repertoire_analysis.overall_repertoire_score
            * CRITERIA_WEIGHTS "repertoire_difficulty"
      ∧ 0 ≤ c3Eval.weighted_score ∧ c3Eval.weighted_score ≤ 10) :=
  ⟨createEval_sample,
   C3_weighted_convex "A" c3Analyses [samplePerformance "A"] (Except.ok "great")
    c3Eval createEval_sample⟩

/-- C4: every dark horse is ranked 11th-20th in the weighted-score-descending
order, hence (for duplicate-free names) not among the top-10 predictions,
carries a weighted score of at least 8.5, and at most 3 dark horses are
named. -/
theorem C4_dark_horses (evals : List (String × PianistEvaluation))
    (hnd : (evals.map Prod.fst).Nodup) :
    (darkHorsesOf evals).length ≤ 3
    ∧ ∀ name ∈ darkHorsesOf evals,
        name ∈ (((rankedPianists evals).drop 10).take 10).map Prod.fst
        ∧ (∃ ev, (name, ev) ∈ evals ∧ HIGH_SCORE_THRESHOLD ≤ ev.weighted_score)
        ∧ name ∉ top10Of evals := by
  constructor
  · simp only [darkHorsesOf, List.length_take]
    omega
  · intro name hname
    simp only [darkHorsesOf] at hname
    have hname2 := List.take_subset 3 _ hname
    rcases List.mem_map.1 hname2 with ⟨p, hpfilter, hp1⟩
    have hpslice : p ∈ ((rankedPianists evals).drop 10).take 10 :=
      List.mem_of_mem_filter hpfilter
    have hcond : HIGH_SCORE_THRESHOLD ≤ p.2.weighted_score := by
      have := List.of_mem_filter hpfilter
      simpa using this
    have hpdrop : p ∈ (rankedPianists evals).drop 10 := List.take_subset 10 _ hpslice
    have hpranked : p ∈ rankedPianists evals := List.drop_subset 10 _ hpdrop
    have hpevals : p ∈ evals := ((rankedPianists_perm evals).mem_iff).1 hpranked
    refine ⟨?_, ⟨p.2, ?_, hcond⟩, ?_⟩
    · rw [← hp1]
      exact List.mem_map_of_mem Prod.fst hpslice
    · rw [← hp1]
      simpa using hpevals
    · intro htop
      have hnodup : ((rankedPianists evals).map Prod.fst).Nodup := by
        have hperm : ((rankedPianists evals).map Prod.fst).Perm (evals.map Prod.fst) :=
          (rankedPianists_perm evals).map Prod.fst
        exact (hperm.nodup_iff).2 hnd
      have hdisj : List.Disjoint (((rankedPianists evals).map Prod.fst).take 10)
          (((rankedPianists evals).map Prod.fst).drop 10) :=
        List.disjoint_take_drop hnodup le_rfl
      have h1 : name ∈ ((rankedPianists evals).map Prod.fst).take 10 := by
        simpa [top10Of, List.map_take] using htop
      have h2 : name ∈ ((rankedPianists evals).map Prod.fst).drop 10 := by
        rw [← hp1]
        rw [← List.map_drop]
        exact List.mem_map_of_mem Prod.fst hpdrop
      exact hdisj h1 h2

/-- Witness for C4 at a concrete twelve-evaluation input. -/
theorem C4_dark_horses_witness :
    (c4SampleEvals.map Prod.fst).Nodup
    ∧ ((darkHorsesOf c4SampleEvals).length ≤ 3
       ∧ ∀ name ∈ darkHorsesOf c4SampleEvals,
           name ∈ (((rankedPianists c4SampleEvals).drop 10).take 10).map Prod.fst
           ∧ (∃ ev, (name, ev) ∈ c4SampleEvals ∧ HIGH_SCORE_THRESHOLD ≤ ev.weighted_score)
           ∧ name ∉ top10Of c4SampleEvals) :=
  ⟨by decide, C4_dark_horses c4SampleEvals (by decide)⟩

/-- C5: with zero pianist evaluations, `predict_winners` returns the
placeholder response (empty lists, winner "No data available", confidence 0,
placeholder narrative text) and touches nothing else in the state; with at
least one evaluation and a successful narrative call, the produced response
has the fixed confidence 0.75. -/
theorem C5_zero_data (s1 s2 : AgentState) (o1 : Except String String) (t : String)
    (h1 : s1.pianist_evaluations = []) (h2 : s2.pianist_evaluations ≠ []) :
    predictWinnersStage o1 s1
      = Except.ok { s1 with final_analysis := some emptyAnalysisResponse }
    ∧ emptyAnalysisResponse.evaluated_pianists = []
    ∧ emptyAnalysisResponse.top_10_predictions = []
    ∧ emptyAnalysisResponse.predicted_finalists = []
    ∧ emptyAnalysisResponse.dark_horses = []
    ∧ emptyAnalysisResponse.predicted_winner = "No data available"
    ∧ emptyAnalysisResponse.confidence = 0
    ∧ emptyAnalysisResponse.overall_competition_analysis
        = "No performance data was collected. Please ensure data sources are accessible and try again."
    ∧ emptyAnalysisResponse.trends_and_observations = "Insufficient data for trend analysis."
    ∧ emptyAnalysisResponse.historical_comparison
        = "Unable to perform historical comparison without data."
    ∧ ∃ r, predictWinnersStage (Except.ok t) s2
        = Except.ok { s2 with final_analysis := some r } ∧ r.confidence = 0.75 := by
  refine ⟨?_, rfl, rfl, rfl, rfl, rfl, ?_, rfl, rfl, rfl, ?_⟩
  · simp [predictWinnersStage, h1]
  · norm_num [emptyAnalysisResponse]
  · rw [predictWinnersStage, if_neg h2]
    exact ⟨_, rfl, rfl⟩

/-- Witness for C5 at concrete empty and one-evaluation states. -/
theorem C5_zero_data_witness :
    (AgentState.pianist_evaluations {} = [])
    ∧ (AgentState.pianist_evaluations
        { pianist_evaluations := [("A", sampleEvaluation "A" 9)] } ≠ [])
    ∧ (predictWinnersStage (Except.error "down") {}
        = Except.ok { ({} : AgentState) with final_analysis := some emptyAnalysisResponse }
      ∧ emptyAnalysisResponse.evaluated_pianists = []
      ∧ emptyAnalysisResponse.top_10_predictions = []
      ∧ emptyAnalysisResponse.predicted_finalists = []
      ∧ emptyAnalysisResponse.dark_horses = []
      ∧ emptyAnalysisResponse.predicted_winner = "No data available"
      ∧ emptyAnalysisResponse.confidence = 0
      ∧ emptyAnalysisResponse.overall_competition_analysis
          = "No performance data was collected. Please ensure data sources are accessible and try again."
      ∧ emptyAnalysisResponse.trends_and_observations = "Insufficient data for trend analysis."
      ∧ emptyAnalysisResponse.historical_comparison
          = "Unable to perform historical comparison without data."
      ∧ ∃ r, predictWinnersStage (Except.ok "overview")
            { pianist_evaluations := [("A", sampleEvaluation "A" 9)] }
          = Except.ok { ({ pianist_evaluations := [("A", sampleEvaluation "A" 9)] } : AgentState)
              with final_analysis := some r }
          ∧ r.confidence = 0.75) :=
  ⟨rfl, by simp,
    C5_zero_data {} { pianist_evaluations := [("A", sampleEvaluation "A" 9)] }
      (Except.error "down") "overview" rfl (by simp)⟩

/-- Splitting the defaulted-sum over a group into its parsed part and its
error-flagged part, when error-flagged analyses carry no score for the
dimension. -/
theorem sum_default_split (f : Analysis → Option ℚ) :
    ∀ (g : List Analysis), (∀ a ∈ g, a.error ≠ none → f a = none) →
      (g.map fun a => (f a).getD 7).sum
        = ((g.filter fun a => a.error = none).map fun a => (f a).getD 7).sum
          + 7 * (((g.filter fun a => a.error ≠ none).length : ℚ))
  | [], _ => by simp
  | a :: t, herr => by
    have ht := sum_default_split f t fun b hb => herr b (List.mem_cons_of_mem a hb)
    by_cases ha : a.error = none
    · simp only [List.map_cons, List.sum_cons, List.filter_cons, ha]
      simp [ht, ha]
      ring
    · have hfa : f a = none := herr a (List.mem_cons_self a t) ha
      simp only [List.map_cons, List.sum_cons, List.filter_cons]
      simp [ht, ha, hfa]
      ring

/-- C6 counterexample: an error-flagged stub is NOT excluded from the numeric
aggregation.  With one successfully parsed analysis scoring 10 and one
error-flagged stub, the stub is grouped with the pianist and the technical
average is (10 + 7) / 2 = 8.5, not the parsed-only average 10. -/
theorem C6_counterexample :
    (analyzeSingle (samplePerformance "A") none).error = some "Failed to parse analysis"
    ∧ groupByName [analyzeSingle (samplePerformance "A") (some (sampleParsed 10)),
        analyzeSingle (samplePerformance "A") none]
      = [("A", [analyzeSingle (samplePerformance "A") (some (sampleParsed 10)),
          analyzeSingle (samplePerformance "A") none])]
    ∧ avgScore (fun a => a.technical_skill)
        [analyzeSingle (samplePerformance "A") (some (sampleParsed 10)),
         analyzeSingle (samplePerformance "A") none] = 17/2
    ∧ avgScore (fun a => a.technical_skill)
        (([analyzeSingle (samplePerformance "A") (some (sampleParsed 10)),
           analyzeSingle (samplePerformance "A") none]).filter
          fun a => a.error = none) = 10
    ∧ avgScore (fun a => a.technical_skill)
        [analyzeSingle (samplePerformance "A") (some (sampleParsed 10)),
         analyzeSingle (samplePerformance "A") none]
      ≠ avgScore (fun a => a.technical_skill)
        (([analyzeSingle (samplePerformance "A") (some (sampleParsed 10)),
           analyzeSingle (samplePerformance "A") none]).filter
          fun a => a.error = none) := by
  refine ⟨rfl, ?_, ?_, ?_, ?_⟩
  · simp [groupByName, addToGroups, analyzeSingle, samplePerformance, sampleParsed]
  · norm_num [avgScore, analyzeSingle, samplePerformance, sampleParsed]
  · norm_num [avgScore, analyzeSingle, samplePerformance, sampleParsed, List.filter,
      decide_eq_false (Option.some_ne_none "Failed to parse analysis")]
  · norm_num [avgScore, analyzeSingle, samplePerformance, sampleParsed, List.filter,
      decide_eq_false (Option.some_ne_none "Failed to parse analysis")]

/-- C6 amended: error-flagged analyses are included in the aggregation; since
they carry no dimension scores, each contributes the default 7 to every
per-dimension average and counts in the denominator: the average equals
(parsed scores-or-defaults + 7 per error stub) / (total group size). -/
theorem C6_error_stub_aggregation (g : List Analysis)
    (herr : ∀ a ∈ g, a.error ≠ none →
      a.technical_skill = none ∧ a.musicality = none ∧ a.interpretation = none
      ∧ a.stage_presence = none ∧ a.repertoire = none) :
    avgScore (fun a => a.technical_skill) g
      = (((g.filter fun a => a.error = none).map fun a => a.technical_skill.getD 7).sum
         + 7 * (((g.filter fun a => a.error ≠ none).length : ℚ))) / g.length
    ∧ avgScore (fun a => a.musicality) g
      = (((g.filter fun a => a.error = none).map fun a => a.musicality.getD 7).sum
         + 7 * (((g.filter fun a => a.error ≠ none).length : ℚ))) / g.length
    ∧ avgScore (fun a => a.interpretation) g
      = (((g.filter fun a => a.error = none).map fun a => a.interpretation.getD 7).sum
         + 7 * (((g.filter fun a => a.error ≠ none).length : ℚ))) / g.length
    ∧ avgScore (fun a => a.stage_presence) g
      = (((g.filter fun a => a.error = none).map fun a => a.stage_presence.getD 7).sum
         + 7 * (((g.filter fun a => a.error ≠ none).length : ℚ))) / g.length
    ∧ avgScore (fun a => a.repertoire) g
      = (((g.filter fun a => a.error = none).map fun a => a.repertoire.getD 7).sum
         + 7 * (((g.filter fun a => a.error ≠ none).length : ℚ))) / g.length := by
  refine ⟨?_, ?_, ?_, ?_, ?_⟩
  · rw [avgScore, sum_default_split (fun a => a.technical_skill) g
      fun a ha he => ((herr a ha he).1)]
  · rw [avgScore, sum_default_split (fun a => a.musicality) g
      fun a ha he => ((herr a ha he).2.1)]
  · rw [avgScore, sum_default_split (fun a => a.interpretation) g
      fun a ha he => ((herr a ha he).2.2.1)]
  · rw [avgScore, sum_default_split (fun a => a.stage_presence) g
      fun a ha he => ((herr a ha he).2.2.2.1)]
  · rw [avgScore, sum_default_split (fun a => a.repertoire) g
      fun a ha he => ((herr a ha he).2.2.2.2)]

/-- Witness for the amended C6 statement at a concrete two-analysis group. -/
theorem C6_error_stub_aggregation_witness :
    (∀ a ∈ [analyzeSingle (samplePerformance "A") (some (sampleParsed 10)),
        analyzeSingle (samplePerformance "A") none], a.error ≠ none →
      a.technical_skill = none ∧ a.musicality = none ∧ a.interpretation = none
      ∧ a.stage_presence = none ∧ a.repertoire = none)
    ∧ (avgScore (fun a => a.technical_skill)
        [analyzeSingle (samplePerformance "A") (some (sampleParsed 10)),
         analyzeSingle (samplePerformance "A") none]
      = ((([analyzeSingle (samplePerformance "A") (some (sampleParsed 10)),
            analyzeSingle (samplePerformance "A") none].filter
              fun a => a.error = none).map fun a => a.technical_skill.getD 7).sum
         + 7 * ((([analyzeSingle (samplePerformance "A") (some (sampleParsed 10)),
              analyzeSingle (samplePerformance "A") none].filter
                fun a => a.error ≠ none).length : ℚ)))
        / ([analyzeSingle (samplePerformance "A") (some (sampleParsed 10)),
            analyzeSingle (samplePerformance "A") none] : List Analysis).length
      ∧ avgScore (fun a => a.musicality)
        [analyzeSingle (samplePerformance "A") (some (sampleParsed 10)),
         analyzeSingle (samplePerformance "A") none]
      = ((([analyzeSingle (samplePerformance "A") (some (sampleParsed 10)),
            analyzeSingle (samplePerformance "A") none].filter
              fun a => a.error = none).map fun a => a.musicality.getD 7).sum
         + 7 * ((([analyzeSingle (samplePerformance "A") (some (sampleParsed 10)),
              analyzeSingle (samplePerformance "A") none].filter
                fun a => a.error ≠ none).length : ℚ)))
        / ([analyzeSingle (samplePerformance "A") (some (sampleParsed 10)),
            analyzeSingle (samplePerformance "A") none] : List Analysis).length
      ∧ avgScore (fun a => a.interpretation)
        [analyzeSingle (samplePerformance "A") (some (sampleParsed 10)),
         analyzeSingle (samplePerformance "A") none]
      = ((([analyzeSingle (samplePerformance "A") (some (sampleParsed 10)),
            analyzeSingle (samplePerformance "A") none].filter
              fun a => a.error = none).map fun a => a.interpretation.getD 7).sum
         + 7 * ((([analyzeSingle (samplePerformance "A") (some (sampleParsed 10)),
              analyzeSingle (samplePerformance "A") none].filter
                fun a => a.error ≠ none).length : ℚ)))
        / ([analyzeSingle (samplePerformance "A") (some (sampleParsed 10)),
            analyzeSingle (samplePerformance "A") none] : List Analysis).length
      ∧ avgScore (fun a => a.stage_presence)
        [analyzeSingle (samplePerformance "A") (some (sampleParsed 10)),
         analyzeSingle (samplePerformance "A") none]
      = ((([analyzeSingle (samplePerformance "A") (some (sampleParsed 10)),
            analyzeSingle (samplePerformance "A") none].filter
              fun a => a.error = none).map fun a => a.stage_presence.getD 7).sum
         + 7 * ((([analyzeSingle (samplePerformance "A") (some (sampleParsed 10)),
              analyzeSingle (samplePerformance "A") none].filter
                fun a => a.error ≠ none).length : ℚ)))
        / ([analyzeSingle (samplePerformance "A") (some (sampleParsed 10)),
            analyzeSingle (samplePerformance "A") none] : List Analysis).length
      ∧ avgScore (fun a => a.repertoire)
        [analyzeSingle (samplePerformance "A") (some (sampleParsed 10)),
         analyzeSingle (samplePerformance "A") none]
      = ((([analyzeSingle (samplePerformance "A") (some (sampleParsed 10)),
            analyzeSingle (samplePerformance "A") none].filter
              fun a => a.error = none).map fun a => a.repertoire.getD 7).sum
         + 7 * ((([analyzeSingle (samplePerformance "A") (some (sampleParsed 10)),
              analyzeSingle (samplePerformance "A") none].filter
                fun a => a.error ≠ none).length : ℚ)))
        / ([analyzeSingle (samplePerformance "A") (some (sampleParsed 10)),
            analyzeSingle (samplePerformance "A") none] : List Analysis).length) :=
  ⟨by decide, C6_error_stub_aggregation
    [analyzeSingle (samplePerformance "A") (some (sampleParsed 10)),
     analyzeSingle (samplePerformance "A") none] (by decide)⟩

/-- C7: a JSON-parse failure for one performance yields a degenerate record
(pianist name, performance id, error field) instead of raising, and does not
abort the batch: when no network-level exception occurs, every one of the
first 20 performances yields exactly one analysis record, and successfully
parsed ones yield normal (error-free) records. -/
theorem C7_parse_failure_isolated (performance : PerformanceData)
    (performances : List PerformanceData) (parse : Nat → Option ParsedAnalysis) :
    (analyzeSingle performance none).pianist_name = performance.pianist_name
    ∧ (analyzeSingle performance none).performance_id = performance.id
    ∧ (analyzeSingle performance none).error = some "Failed to parse analysis"
    ∧ (∀ parsed, (analyzeSingle performance (some parsed)).error = none
        ∧ (analyzeSingle performance (some parsed)).technical_skill = parsed.technical_skill)
    ∧ analyzePerformances (fun i => Except.ok (parse i)) performances
      = ((performances.take 20).enum.map fun ip => analyzeSingle ip.2 (parse ip.1))
    ∧ (analyzePerformances (fun i => Except.ok (parse i)) performances).length
      = min 20 performances.length := by
  have hmap : analyzePerformances (fun i => Except.ok (parse i)) performances
      = ((performances.take 20).enum.map fun ip => analyzeSingle ip.2 (parse ip.1)) := by
    show List.filterMap (some ∘ fun (ip : Nat × PerformanceData) => analyzeSingle ip.2 (parse ip.1))
      ((performances.take 20).enum)
      = ((performances.take 20).enum.map fun ip => analyzeSingle ip.2 (parse ip.1))
    rw [List.filterMap_eq_map]
  refine ⟨rfl, rfl, rfl, fun parsed => ⟨rfl, rfl⟩, hmap, ?_⟩
  rw [hmap]
  simp [List.length_take]

/-- C9: the analysis stage looks at no more than the first 20 collected
performances: its output is unchanged when the input is truncated to 20, has
at most 20 entries, and appending further performances past the first 20
cannot change it. -/
theorem C9_analysis_cap (oracle : AnalysisOracle)
    (performances extra : List PerformanceData) (h : 20 ≤ performances.length) :
    analyzePerformances oracle performances
      = analyzePerformances oracle (performances.take 20)
    ∧ (analyzePerformances oracle performances).length ≤ 20
    ∧ analyzePerformances oracle (performances ++ extra)
      = analyzePerformances oracle performances := by
  refine ⟨?_, ?_, ?_⟩
  · simp [analyzePerformances, List.take_take]
  · calc (analyzePerformances oracle performances).length
        ≤ (performances.take 20).enum.length := List.length_filterMap_le _ _
      _ = (performances.take 20).length := List.enum_length
      _ ≤ 20 := List.length_take_le 20 performances
  · rw [analyzePerformances, analyzePerformances,
      List.take_append_of_le_length h]

/-- Witness for C9 at a concrete 21-performance input. -/
theorem C9_analysis_cap_witness :
    20 ≤ (List.replicate 20 (samplePerformance "A")).length
    ∧ (analyzePerformances (fun _ => Except.ok (some (sampleParsed 8)))
        (List.replicate 20 (samplePerformance "A"))
      = analyzePerformances (fun _ => Except.ok (some (sampleParsed 8)))
        ((List.replicate 20 (samplePerformance "A")).take 20)
      ∧ (analyzePerformances (fun _ => Except.ok (some (sampleParsed 8)))
          (List.replicate 20 (samplePerformance "A"))).length ≤ 20
      ∧ analyzePerformances (fun _ => Except.ok (some (sampleParsed 8)))
          (List.replicate 20 (samplePerformance "A") ++ [samplePerformance "B"])
        = analyzePerformances (fun _ => Except.ok (some (sampleParsed 8)))
          (List.replicate 20 (samplePerformance "A"))) :=
  ⟨by simp, C9_analysis_cap (fun _ => Except.ok (some (sampleParsed 8)))
    (List.replicate 20 (samplePerformance "A")) [samplePerformance "B"] (by simp)⟩

/-- C8 counterexample: a full pipeline run in which collection, analysis and
evaluation all succeed (one pianist evaluated), but the narrative LLM call
inside `_predict_winners` raises.  `_predict_winners` has no exception
handler, so the exception propagates out of the pipeline instead of being
appended to the `errors` list: the run aborts with the exception. -/
theorem C8_counterexample :
    runPipeline (Except.ok [samplePerformance "A"]) (Except.ok [])
      (fun _ => Except.ok (some (sampleParsed 8))) (fun _ => Except.ok "great")
      (Except.error "LLM unavailable")
    = Except.error "LLM unavailable" := by
  have heval : evaluatePianists [samplePerformance "A"]
      [analyzeSingle (samplePerformance "A") (some (sampleParsed 8))]
      (fun _ => Except.ok "great") = [("A", c3Eval)] := by
    rw [evaluatePianists]
    rw [show groupByName [analyzeSingle (samplePerformance "A") (some (sampleParsed 8))]
      = [("A", [analyzeSingle (samplePerformance "A") (some (sampleParsed 8))])] from rfl]
    rw [List.filterMap_cons]
    rw [show createPianistEvaluation "A"
        [analyzeSingle (samplePerformance "A") (some (sampleParsed 8))]
        [samplePerformance "A"] (Except.ok "great") = Except.ok c3Eval from createEval_sample]
    simp
  show predictWinnersStage (Except.error "LLM unavailable")
      (evaluatePianistsStage (fun _ => Except.ok "great")
        (analyzePerformancesStage (fun _ => Except.ok (some (sampleParsed 8)))
          (collectReviewsStage (Except.ok [])
            (collectPerformancesStage (Except.ok [samplePerformance "A"]) {}))))
    = Except.error "LLM unavailable"
  rw [show analyzePerformancesStage (fun _ => Except.ok (some (sampleParsed 8)))
      (collectReviewsStage (Except.ok [])
        (collectPerformancesStage (Except.ok [samplePerformance "A"]) {}))
    = { performances_collected := [samplePerformance "A"]
        reviews_collected := []
        video_analyses := [analyzeSingle (samplePerformance "A") (some (sampleParsed 8))]
        pianist_evaluations := []
        final_analysis := none
        iteration := 1
        errors := [] } from rfl]
  rw [show evaluatePianistsStage (fun _ => Except.ok "great")
      { performances_collected := [samplePerformance "A"]
        reviews_collected := []
        video_analyses := [analyzeSingle (samplePerformance "A") (some (sampleParsed 8))]
        pianist_evaluations := []
        final_analysis := none
        iteration := 1
        errors := [] }
    = { performances_collected := [samplePerformance "A"]
        reviews_collected := []
        video_analyses := [analyzeSingle (samplePerformance "A") (some (sampleParsed 8))]
        pianist_evaluations := evaluatePianists [samplePerformance "A"]
          [analyzeSingle (samplePerformance "A") (some (sampleParsed 8))]
          (fun _ => Except.ok "great")
        final_analysis := none
        iteration := 1
        errors := [] } from rfl]
  rw [heval]
  rw [predictWinnersStage, if_neg (by simp)]

/-- C8 amended: the two collection stages convert a raised exception into an
appended error string, leave every other state field unchanged, and the
pipeline still reaches a terminal state (fail-open); the analysis and
evaluation stages swallow per-item failures and cannot raise at stage level;
but `_predict_winners` has no handler, so with a non-empty evaluation set an
exception from its narrative LLM call propagates and aborts the run. -/
theorem C8_error_semantics (e1 e2 oe : String) (s : AgentState)
    (aO : AnalysisOracle) (dO : String → Except String String)
    (hne : s.pianist_evaluations ≠ []) :
    collectPerformancesStage (Except.error e1) s
      = { s with errors := s.errors ++ ["Performance collection error: " ++ e1] }
    ∧ collectReviewsStage (Except.error e2) s
      = { s with errors := s.errors ++ ["Review collection error: " ++ e2] }
    ∧ runPipeline (Except.error e1) (Except.error e2) aO dO (Except.error oe)
      = Except.ok
        { performances_collected := []
          reviews_collected := []
          video_analyses := []
          pianist_evaluations := []
          final_analysis := some emptyAnalysisResponse
          iteration := 0
          errors := ["Performance collection error: " ++ e1,
                     "Review collection error: " ++ e2] }
    ∧ predictWinnersStage (Except.error oe) s = Except.error oe := by
  refine ⟨rfl, rfl, ?_, ?_⟩
  · simp [runPipeline, collectPerformancesStage, collectReviewsStage,
      analyzePerformancesStage, analyzePerformances, evaluatePianistsStage,
      evaluatePianists, groupByName, predictWinnersStage]
  · rw [predictWinnersStage, if_neg hne]

/-- Witness for the amended C8 statement at a concrete non-empty state. -/
theorem C8_error_semantics_witness :
    (AgentState.pianist_evaluations
        { pianist_evaluations := [("A", sampleEvaluation "A" 9)] } ≠ [])
    ∧ (collectPerformancesStage (Except.error "net down")
          { pianist_evaluations := [("A", sampleEvaluation "A" 9)] }
        = { ({ pianist_evaluations := [("A", sampleEvaluation "A" 9)] } : AgentState) with
            errors := [] ++ ["Performance collection error: " ++ "net down"] }
      ∧ collectReviewsStage (Except.error "feed down")
          { pianist_evaluations := [("A", sampleEvaluation "A" 9)] }
        = { ({ pianist_evaluations := [("A", sampleEvaluation "A" 9)] } : AgentState) with
            errors := [] ++ ["Review collection error: " ++ "feed down"] }
      ∧ runPipeline (Except.error "net down") (Except.error "feed down")
          (fun _ => Except.ok none) (fun _ => Except.ok "d") (Except.error "llm down")
        = Except.ok
          { performances_collected := []
            reviews_collected := []
            video_analyses := []
            pianist_evaluations := []
            final_analysis := some emptyAnalysisResponse
            iteration := 0
            errors := ["Performance collection error: " ++ "net down",
                       "Review collection error: " ++ "feed down"] }
      ∧ predictWinnersStage (Except.error "llm down")
          { pianist_evaluations := [("A", sampleEvaluation "A" 9)] }
        = Except.error "llm down") :=
  ⟨by simp, C8_error_semantics "net down" "feed down" "llm down"
    { pianist_evaluations := [("A", sampleEvaluation "A" 9)] }
    (fun _ => Except.ok none) (fun _ => Except.ok "d") (by simp)⟩

/-- C10: pydantic validation bounds every numeric field of a constructed
`PianistEvaluation`; a pianist whose construction raises (for example because
an averaged score exceeds 10) is silently dropped, so every evaluation in the
aggregation output satisfies all the bounds: scores in [0,10], probabilities
in [0,1], audience sentiment in [-1,1]. -/
theorem C10_validated_bounds (ps : List PerformanceData) (analyses : List Analysis)
    (dO : String → Except String String) :
    (∀ ne ∈ evaluatePianists ps analyses dO,
        (ne.2 : PianistEvaluation).valid = true
        ∧ 0 ≤ ne.2.technical_analysis.overall_technical_score
        ∧ ne.2.technical_analysis.overall_technical_score ≤ 10
        ∧ 0 ≤ ne.2.musical_analysis.overall_musicality_score
        ∧ ne.2.musical_analysis.overall_musicality_score ≤ 10
        ∧ 0 ≤ ne.2.interpretation_analysis.overall_interpretation_score
        ∧ ne.2.interpretation_analysis.overall_interpretation_score ≤ 10
        ∧ 0 ≤ ne.2.stage_presence_analysis.overall_stage_presence_score
        ∧ ne.2.stage_presence_analysis.overall_stage_presence_score ≤ 10
        ∧ 0 ≤ ne.2.repertoire_analysis.overall_repertoire_score
        ∧ ne.2.repertoire_analysis.overall_repertoire_score ≤ 10
        ∧ 0 ≤ ne.2.overall_score ∧ ne.2.overall_score ≤ 10
        ∧ 0 ≤ ne.2.weighted_score ∧ ne.2.weighted_score ≤ 10
        ∧ 0 ≤ ne.2.win_probability ∧ ne.2.win_probability ≤ 1
        ∧ 0 ≤ ne.2.finalist_probability ∧ ne.2.finalist_probability ≤ 1
        ∧ -1 ≤ ne.2.audience_sentiment ∧ ne.2.audience_sentiment ≤ 1)
    ∧ (∀ name g, (name, g) ∈ groupByName analyses →
        (∀ e, createPianistEvaluation name g ps (dO name) ≠ Except.ok e) →
        ∀ ev, (name, ev) ∉ evaluatePianists ps analyses dO) := by
  constructor
  · intro ne hne
    rw [evaluatePianists] at hne
    rcases List.mem_filterMap.1 hne with ⟨ng, hng, hmatch⟩
    rcases hcr : createPianistEvaluation ng.1 ng.2 ps (dO ng.1) with err | e
    · rw [hcr] at hmatch
      simp at hmatch
    · rw [hcr] at hmatch
      simp only [Option.some.injEq] at hmatch
      have hvalid : e.valid = true := createPianistEvaluation_valid _ _ _ _ _ hcr
      have hsnd : ne.2 = e := by rw [← hmatch]
      rw [hsnd]
      refine ⟨hvalid, ?_⟩
      simp only [PianistEvaluation.valid, TechnicalAnalysis.valid,
        MusicalAnalysis.valid, InterpretationAnalysis.valid,
        StagePresenceAnalysis.valid, RepertoireAnalysis.valid, inRange,
        Bool.and_eq_true, decide_eq_true_eq] at hvalid
      obtain ⟨⟨⟨⟨⟨⟨⟨⟨⟨hT, hM⟩, hI⟩, hS⟩, hR⟩, hOV⟩, hWT⟩, hWIN⟩, hFIN⟩, hSENT⟩ := hvalid
      exact ⟨hT.2.1, hT.2.2, hM.2.1, hM.2.2, hI.2.1, hI.2.2, hS.2.1, hS.2.2,
        hR.2.1, hR.2.2, hOV.1, hOV.2, hWT.1, hWT.2, hWIN.1, hWIN.2,
        hFIN.1, hFIN.2, hSENT.1, hSENT.2⟩
  · intro name g hg hfail ev hev
    rw [evaluatePianists] at hev
    rcases List.mem_filterMap.1 hev with ⟨ng, hng, hmatch⟩
    rcases hcr : createPianistEvaluation ng.1 ng.2 ps (dO ng.1) with err | e
    · rw [hcr] at hmatch
      simp at hmatch
    · rw [hcr] at hmatch
      simp only [Option.some.injEq] at hmatch
      have hname : ng.1 = name := congrArg Prod.fst hmatch
      have hgeq : ng.2 = g := by
        refine keys_nodup_unique (groupByName analyses) (groupByName_keys_nodup analyses)
          name ng.2 g ?_ hg
        rw [← hname]
        simpa using hng
      apply hfail e
      rw [← hname, ← hgeq]
      exact hcr

/-- Witness for C10: the concrete aggregation output contains exactly the
validated evaluation of pianist A. -/
theorem C10_validated_bounds_witness :
    ("A", c3Eval) ∈ evaluatePianists [samplePerformance "A"] c3Analyses
      (fun _ => Except.ok "great")
    ∧ (c3Eval.valid = true
       ∧ 0 ≤ c3Eval.technical_analysis.overall_technical_score
       ∧ c3Eval.technical_analysis.overall_technical_score ≤ 10
       ∧ 0 ≤ c3Eval.musical_analysis.overall_musicality_score
       ∧ c3Eval.musical_analysis.overall_musicality_score ≤ 10
       ∧ 0 ≤ c3Eval.interpretation_analysis.overall_interpretation_score
       ∧ c3Eval.interpretation_analysis.overall_interpretation_score ≤ 10
       ∧ 0 ≤ c3Eval.stage_presence_analysis.overall_stage_presence_score
       ∧ c3Eval.stage_presence_analysis.overall_stage_presence_score ≤ 10
       ∧ 0 ≤ c3Eval.repertoire_analysis.overall_repertoire_score
       ∧ c3Eval.repertoire_analysis.overall_repertoire_score ≤ 10
       ∧ 0 ≤ c3Eval.overall_score ∧ c3Eval.overall_score ≤ 10
       ∧ 0 ≤ c3Eval.weighted_score ∧ c3Eval.weighted_score ≤ 10
       ∧ 0 ≤ c3Eval.win_probability ∧ c3Eval.win_probability ≤ 1
       ∧ 0 ≤ c3Eval.finalist_probability ∧ c3Eval.finalist_probability ≤ 1
       ∧ -1 ≤ c3Eval.audience_sentiment ∧ c3Eval.audience_sentiment ≤ 1) := by
  have hmem : ("A", c3Eval) ∈ evaluatePianists [samplePerformance "A"] c3Analyses
      (fun _ => Except.ok "great") := by
    rw [evaluatePianists]
    rw [show groupByName c3Analyses
      = [("A", [analyzeSingle (samplePerformance "A") (some (sampleParsed 8))])] from rfl]
    rw [List.filterMap_cons]
    rw [show createPianistEvaluation "A"
        [analyzeSingle (samplePerformance "A") (some (sampleParsed 8))]
        [samplePerformance "A"] (Except.ok "great") = Except.ok c3Eval from createEval_sample]
    simp
  exact ⟨hmem, (C10_validated_bounds [samplePerformance "A"] c3Analyses
    (fun _ => Except.ok "great")).1 ("A", c3Eval) hmem⟩

end Chopin
